import Mathlib

/-!
Shallow embedding of the outbound dispatch-and-relay engine of TrojanRust
(`src/proxy/tcp/handler.rs`) and the external collaborators it calls, with
theorems checking the natural-language specification against the code.

Conventions:
* Machine bytes and 32-bit words are `Nat` with explicit reduction `% 2 ^ 32`
  (resp. `% 256`) where overflow matters.
* Network effects are modelled by an oracle `Net` that decides the outcome of
  each external operation, and every handler returns the ordered trace of
  external operations it attempted (`List Event`) together with an `Outcome`
  (`ok`, an error value, or `panicked` for a Rust panic such as
  `Option::unwrap` on `None` / `Result::unwrap` on `Err`).
-/

set_option autoImplicit false

namespace TrojanRust

/-! ## SHA-224 (model of the external `sha2` crate's `Sha224::digest`)

Modelled from the spec: the secret-derivation component calls the external
`sha2` crate, whose code is not part of this repository; §4.1 specifies "a
224-bit cryptographic digest of the secret's byte encoding".  We embed the
actual FIPS 180-4 SHA-224 function so the model is the real digest; the test
vectors `sha224_empty_vector` and `sha224_abc_vector` below check it. -/

/-- 2^32, the modulus for 32-bit word arithmetic. -/
def M32 : Nat := 2 ^ 32

/-- Addition modulo 2^32. -/
def add32 (a b : Nat) : Nat := (a + b) % M32

/-- Right rotation of a 32-bit word by `n` bits. -/
def rotr32 (n x : Nat) : Nat := ((x >>> n) ||| (x <<< (32 - n))) % M32

/-- Bitwise complement of a 32-bit word. -/
def not32 (x : Nat) : Nat := x ^^^ (M32 - 1)

/-- SHA-256 family `Ch` function. -/
def chWord (x y z : Nat) : Nat := (x &&& y) ^^^ (not32 x &&& z)

/-- SHA-256 family `Maj` function. -/
def majWord (x y z : Nat) : Nat := (x &&& y) ^^^ (x &&& z) ^^^ (y &&& z)

/-- SHA-256 family big Σ₀. -/
def bigSigma0 (x : Nat) : Nat := rotr32 2 x ^^^ rotr32 13 x ^^^ rotr32 22 x

/-- SHA-256 family big Σ₁. -/
def bigSigma1 (x : Nat) : Nat := rotr32 6 x ^^^ rotr32 11 x ^^^ rotr32 25 x

/-- SHA-256 family small σ₀. -/
def smallSigma0 (x : Nat) : Nat := rotr32 7 x ^^^ rotr32 18 x ^^^ (x >>> 3)

/-- SHA-256 family small σ₁. -/
def smallSigma1 (x : Nat) : Nat := rotr32 17 x ^^^ rotr32 19 x ^^^ (x >>> 10)

/-- The 64 SHA-256 family round constants (FIPS 180-4 §4.2.2, here written
in decimal). -/
def shaK : List Nat :=
  [1116352408, 1899447441, 3049323471, 3921009573,
   961987163, 1508970993, 2453635748, 2870763221,
   3624381080, 310598401, 607225278, 1426881987,
   1925078388, 2162078206, 2614888103, 3248222580,
   3835390401, 4022224774, 264347078, 604807628,
   770255983, 1249150122, 1555081692, 1996064986,
   2554220882, 2821834349, 2952996808, 3210313671,
   3336571891, 3584528711, 113926993, 338241895,
   666307205, 773529912, 1294757372, 1396182291,
   1695183700, 1986661051, 2177026350, 2456956037,
   2730485921, 2820302411, 3259730800, 3345764771,
   3516065817, 3600352804, 4094571909, 275423344,
   430227734, 506948616, 659060556, 883997877,
   958139571, 1322822218, 1537002063, 1747873779,
   1955562222, 2024104815, 2227730452, 2361852424,
   2428436474, 2756734187, 3204031479, 3329325298]

/-- Hash state: eight 32-bit words. -/
structure ShaState where
  a : Nat
  b : Nat
  c : Nat
  d : Nat
  e : Nat
  f : Nat
  g : Nat
  h : Nat
deriving Repr, DecidableEq

/-- SHA-224 initial hash value (FIPS 180-4 §5.3.2, in decimal). -/
def sha224Init : ShaState :=
  ⟨3238371032, 914150663, 812702999, 4144912697,
   4290775857, 1750603025, 1694076839, 3204075428⟩

/-- Pack four big-endian bytes into a 32-bit word. -/
def bytesToWord (a b c d : Nat) : Nat :=
  (a % 256) * 2 ^ 24 + (b % 256) * 2 ^ 16 + (c % 256) * 2 ^ 8 + d % 256

/-- The first 16 schedule words of a 64-byte block. -/
def blockWords : List Nat → List Nat
  | a :: b :: c :: d :: rest => bytesToWord a b c d :: blockWords rest
  | _ => []

/-- Extend the message schedule by `n` further words. -/
def extendW : Nat → Array Nat → Array Nat
  | 0, w => w
  | n + 1, w =>
    let i := w.size
    let nw := add32
      (add32 (smallSigma1 (w.get! (i - 2))) (w.get! (i - 7)))
      (add32 (smallSigma0 (w.get! (i - 15))) (w.get! (i - 16)))
    extendW n (w.push nw)

/-- One compression round: `kw` is the pair of round constant and schedule word. -/
def shaRound (s : ShaState) (kw : Nat × Nat) : ShaState :=
  let t1 := add32 s.h (add32 (bigSigma1 s.e)
    (add32 (chWord s.e s.f s.g) (add32 kw.1 kw.2)))
  let t2 := add32 (bigSigma0 s.a) (majWord s.a s.b s.c)
  ⟨add32 t1 t2, s.a, s.b, s.c, add32 s.d t1, s.e, s.f, s.g⟩

/-- Compress one 64-byte block into the running hash state. -/
def compressBlock (s : ShaState) (block : List Nat) : ShaState :=
  let w := extendW 48 (Array.mk (blockWords block))
  let r := (shaK.zip w.toList).foldl shaRound s
  ⟨add32 s.a r.a, add32 s.b r.b, add32 s.c r.c, add32 s.d r.d,
   add32 s.e r.e, add32 s.f r.f, add32 s.g r.g, add32 s.h r.h⟩

/-- Big-endian byte rendering of `x` on `n` bytes. -/
def natToBytesBE : Nat → Nat → List Nat
  | 0, _ => []
  | n + 1, x => (x >>> (8 * n)) % 256 :: natToBytesBE n x

/-- FIPS 180-4 padding: append `0x80`, zeros, and the 64-bit bit length, so
that the total length is a multiple of 64 bytes. -/
def padMessage (msg : List Nat) : List Nat :=
  msg ++ (128 :: List.replicate ((119 - msg.length % 64) % 64) 0)
      ++ natToBytesBE 8 (8 * msg.length)

/-- Fold the compression function over consecutive 64-byte blocks; the fuel
argument bounds the recursion and is instantiated with the padded length. -/
def processBlocks : Nat → ShaState → List Nat → ShaState
  | _, s, [] => s
  | 0, s, _ => s
  | fuel + 1, s, l => processBlocks fuel (compressBlock s (l.take 64)) (l.drop 64)

/-- Big-endian bytes of one 32-bit word. -/
def wordBytes (w : Nat) : List Nat :=
  [(w >>> 24) % 256, (w >>> 16) % 256, (w >>> 8) % 256, w % 256]

/-- SHA-224 of a byte sequence: the first seven words of the final state. -/
def sha224 (msg : List Nat) : List Nat :=
  let padded := padMessage msg
  let s := processBlocks padded.length sha224Init padded
  wordBytes s.a ++ wordBytes s.b ++ wordBytes s.c ++ wordBytes s.d ++
    wordBytes s.e ++ wordBytes s.f ++ wordBytes s.g

/-! ## Hex rendering of the digest

Models `format!("{:02x}", x)` per digest byte followed by
`.collect::<String>().as_bytes().to_vec()` in `Handler::new`: each byte
becomes two lowercase hexadecimal ASCII bytes. -/

/-- ASCII code of the lowercase hex digit for `d < 16`. -/
def hexDigitByte (d : Nat) : Nat := if d < 10 then 48 + d else 87 + d

/-- Two-lowercase-hex-ASCII-bytes rendering of each byte, concatenated. -/
def hexEncode : List Nat → List Nat
  | [] => []
  | b :: rest => hexDigitByte (b / 16) :: hexDigitByte (b % 16) :: hexEncode rest

/-- The secret derivation performed by `Handler::new` for the Trojan
protocol: SHA-224 digest of the secret bytes, rendered in lowercase hex. -/
def deriveToken (secret : List Nat) : List Nat := hexEncode (sha224 secret)

/-! ## Socket addresses (model of `std::net::SocketAddr` textual parsing)

Modelled from the spec: §1 places "DNS/address textual parsing" with external
collaborators.  We model the standard library's `SocketAddr: FromStr`, which
accepts `a.b.c.d:port` with a numeric IPv4 literal (each octet 0–255, no
leading zeros) or `[v6]:port` with a bracketed IPv6 literal, and rejects
everything else — in particular a domain name in place of the IP literal. -/

/-- A socket address: textual IP (without brackets) and port. -/
structure SocketAddr where
  host : String
  port : Nat
deriving Repr, DecidableEq

/-- Split a character list at every occurrence of `c` (like `str::split`). -/
def splitOnChar (c : Char) : List Char → List (List Char)
  | [] => [[]]
  | x :: xs =>
    if x = c then [] :: splitOnChar c xs
    else
      match splitOnChar c xs with
      | [] => [[x]]
      | g :: gs => (x :: g) :: gs

/-- Numeric value of a digit string. -/
def digitsVal (cs : List Char) : Nat :=
  cs.foldl (fun n c => 10 * n + (c.toNat - 48)) 0

/-- A valid IPv4 octet: nonempty digits, value ≤ 255, no leading zero. -/
def validOctet (cs : List Char) : Bool :=
  !cs.isEmpty && cs.all Char.isDigit && (cs.length == 1 || cs.head? != some '0')
    && digitsVal cs ≤ 255

/-- A valid dotted-quad IPv4 literal. -/
def isIPv4 (cs : List Char) : Bool :=
  match splitOnChar '.' cs with
  | [a, b, c, d] => validOctet a && validOctet b && validOctet c && validOctet d
  | _ => false

/-- Parse a port: nonempty digits with value ≤ 65535. -/
def parsePort (cs : List Char) : Option Nat :=
  if !cs.isEmpty && cs.all Char.isDigit && digitsVal cs ≤ 65535 then
    some (digitsVal cs)
  else none

/-- A (coarse) valid IPv6 literal: hex digits and colons, with a colon. -/
def isIPv6 (cs : List Char) : Bool :=
  !cs.isEmpty && cs.contains ':'
    && cs.all (fun c => c.isDigit || ('a' ≤ c && c ≤ 'f') || c == ':')

/-- Model of `"host:port".parse::<SocketAddr>()`: either `[v6]:port` or
`v4:port`. -/
def parseSocketAddr (s : String) : Option SocketAddr :=
  match s.toList with
  | '[' :: rest =>
    match splitOnChar ']' rest with
    | [inner, colonPort] =>
      match colonPort with
      | ':' :: portCs =>
        if isIPv6 inner then
          (parsePort portCs).map (fun pn => ⟨String.mk inner, pn⟩)
        else none
      | _ => none
    | _ => none
  | cs =>
    match splitOnChar ':' cs with
    | [hostCs, portCs] =>
      if isIPv4 hostCs then
        (parsePort portCs).map (fun pn => ⟨String.mk hostCs, pn⟩)
      else none
    | _ => none

/-- `Display` of a (v4) socket address, as used by `format!("{}", addr)`. -/
def SocketAddr.toDisplay (a : SocketAddr) : String :=
  a.host ++ ":" ++ toString a.port

/-! ## Configuration data model (`config::base`, `proxy::base`,
`protocol::common`)

These enums and the `OutboundConfig` record live in modules of the repository
that are not under `src/`; their shape is taken from the spec's §3 data model
and from how `handler.rs` consumes them.  The plaintext secret is carried as
its UTF-8 byte sequence (Rust reads it via `str::as_bytes`). -/

inductive OutboundMode
  | DIRECT
  | TCP
  | GRPC
  | QUIC
deriving Repr, DecidableEq

inductive SupportedProtocols
  | TROJAN
  | SOCKS
  | DIRECT
deriving Repr, DecidableEq

inductive TransportProtocol
  | TCP
  | UDP
deriving Repr, DecidableEq

/-- The TLS part of the outbound configuration; the client-config object is
opaque here (constructed by the TLS collaborator), only the peer host name
matters to `Handler::new`. -/
structure TlsConfigModel where
  host_name : String
deriving Repr, DecidableEq

/-- `OutboundConfig` as consumed by `Handler::new`. -/
structure OutboundConfig where
  mode : OutboundMode
  protocol : SupportedProtocols
  address : Option String
  port : Option Nat
  secret : Option (List Nat)
  tls : Option TlsConfigModel
deriving Repr, DecidableEq

/-- Error kinds of `std::io::ErrorKind` used by `handler.rs`. -/
inductive ErrorKind
  | InvalidInput
  | NotConnected
  | ConnectionRefused
  | Unsupported
  | Interrupted
deriving Repr, DecidableEq

/-- Modelled from the spec: `rustls::ServerName::try_from` is external
collaborator code; it accepts DNS names and IP literals.  The model accepts
nonempty strings of alphanumerics, dots, hyphens and colons. -/
def serverNameOk (s : String) : Bool :=
  !s.toList.isEmpty
    && s.toList.all (fun c => c.isAlphanum || c == '.' || c == '-' || c == ':')

/-- Resolved session state held by the dispatcher, as in `struct Handler`;
the `tls` field keeps the parsed peer name (the `ClientConfig` is opaque). -/
structure Handler where
  mode : OutboundMode
  protocol : SupportedProtocols
  destination : Option SocketAddr
  tls : Option String
  secret : List Nat
deriving Repr, DecidableEq

/-- Result of `Handler::new`: a handler, an error value, or a Rust panic
(`unwrap` on a failed parse). -/
inductive NewResult
  | ok (h : Handler)
  | err (kind : ErrorKind) (msg : String)
  | panicked
deriving Repr, DecidableEq

/-- The secret-processing `match` at the end of `Handler::new`: only
`TROJAN` with a present secret derives a token; every other case — including
`TROJAN` with an absent secret — falls through to an empty vector. -/
def newSecret (outbound : OutboundConfig) : List Nat :=
  match outbound.protocol, outbound.secret with
  | .TROJAN, some s => deriveToken s
  | _, _ => []

/-- The TLS `match` at the head of `Handler::new`: `none` stands for the
early `Err` return on an unparsable host name, `some tls` for the computed
`tls` field. -/
def newTls (outbound : OutboundConfig) : Option (Option String) :=
  match outbound.tls with
  | some cfg =>
    if serverNameOk cfg.host_name then some (some cfg.host_name) else none
  | none => some none

/-- `Handler::new`: evaluate the TLS option, extract the destination from
`(address, port)` — `format!("addr:port").parse().unwrap()` when both are
present — and process the secret. -/
def Handler.new (outbound : OutboundConfig) : NewResult :=
  match newTls outbound with
  | none => .err .InvalidInput "Failed to parse host name"
  | some tls =>
    match outbound.address, outbound.port with
    | some addr, some port =>
      match parseSocketAddr (addr ++ ":" ++ toString port) with
      | some dest =>
        .ok ⟨outbound.mode, outbound.protocol, some dest, tls, newSecret outbound⟩
      | none => .panicked
    | some _, none => .err .InvalidInput "Missing port while address is present"
    | none, some _ => .err .InvalidInput "Missing address while port is present"
    | none, none =>
      .ok ⟨outbound.mode, outbound.protocol, none, tls, newSecret outbound⟩

/-! ## Requests and the dispatch effect model -/

/-- `InboundRequest` fields as read by `handler.rs`: `atype` and `command`
are the byte values produced by `to_byte()`, `addr` the `Display` rendering
of the destination address. -/
structure InboundRequest where
  transport_protocol : TransportProtocol
  atype : Nat
  command : Nat
  addr : String
  port : Nat
deriving Repr, DecidableEq

/-- Modelled from the spec: `InboundRequest::into_destination_address` lives
in `protocol::common` (not under `src/`); per §3 the request fields together
identify the true remote endpoint, so it yields the textual `addr:port`. -/
def InboundRequest.into_destination_address (r : InboundRequest) : String :=
  r.addr ++ ":" ++ toString r.port

/-- Modelled from the spec: the gRPC message types come from the generated
`transport::grpc` module (not under `src/`); §6 describes the structured
message with a `packet_type` discriminator, an optional control payload and
an optional raw-bytes payload. -/
structure TrojanRequest where
  hex : List Nat
  atype : Nat
  command : Nat
  address : String
  port : Nat
deriving Repr, DecidableEq

/-- The gRPC stream message (`GrpcPacket`); `packet_type = 1` is the control
discriminator used for the initial request. -/
structure GrpcPacket where
  packet_type : Nat
  trojan : Option TrojanRequest
  datagram : Option (List Nat)
deriving Repr, DecidableEq

/-- External operations a dispatch call can attempt, in program order.  Each
constructor records an attempt; whether it succeeds is decided by `Net`. -/
inductive Event
  | directConnect (addr : String)
  | udpBind
  | udpConnect (addr : String)
  | tcpConnect (addr : SocketAddr)
  | tlsConnect (domain : String)
  | trojanHandshake (secret : List Nat) (request : InboundRequest)
  | quicEndpoint (localAddr : SocketAddr)
  | quicConnect (addr : SocketAddr) (serverName : String)
  | quicOpenBi
  | grpcConnect (endpoint : String)
  | grpcSend (packet : GrpcPacket)
  | grpcProxyCall
  | relayTcp
  | relayUdp
  | relayPackets
  | relayQuic
  | relayGrpc
deriving Repr, DecidableEq

/-- Outcome of a dispatch call: success, an `std::io::Error` value, or a
Rust panic (`unwrap`). -/
inductive Outcome
  | ok
  | err (kind : ErrorKind) (msg : String)
  | panicked
deriving Repr, DecidableEq

/-- Oracle deciding the outcome of each external operation, standing for the
operating system and the remote peers.  Error payloads of operations whose
`io::Error` is propagated verbatim (`?`) are carried as kind–message pairs;
operations the code wraps itself only need a message. -/
structure Net where
  directTcpOk : String → Bool
  directTcpErrMsg : String
  udpBindOk : Bool
  udpBindErr : ErrorKind × String
  udpConnectOk : String → Bool
  udpConnectErrMsg : String
  tcpConnectOk : SocketAddr → Bool
  tcpConnectErr : ErrorKind × String
  tlsOk : Bool
  tlsErr : ErrorKind × String
  trojanHandshakeOk : Bool
  trojanHandshakeErr : ErrorKind × String
  quicEndpointOk : Bool
  quicConnectOk : Bool
  quicOpenBiOk : Bool
  grpcConnectOk : String → Bool
  grpcConnectErrMsg : String
  grpcSendOk : Bool
  grpcProxyOk : Bool
  grpcProxyErrMsg : String

/-- Modelled from the spec: `crate::protocol::trojan::HEX_SIZE` is declared
outside `src/`; §4.2 fixes the required token width at 56 bytes. -/
def HEX_SIZE : Nat := 56

/-! ## The four transport escalators and `dispatch` -/

/-- `Handler::handle_direct_stream`: dial the request-derived address with
the request's transport protocol, then relay; no TLS, no handshake, no use
of the fixed destination. -/
def handle_direct_stream (_h : Handler) (net : Net) (request : InboundRequest) :
    List Event × Outcome :=
  match request.transport_protocol with
  | .TCP =>
    let addr := request.into_destination_address
    if net.directTcpOk addr then
      ([.directConnect addr, .relayTcp], .ok)
    else
      ([.directConnect addr],
        .err .ConnectionRefused
          ("failed to connect to tcp " ++ addr ++ ": " ++ net.directTcpErrMsg))
  | .UDP =>
    let addr := request.into_destination_address
    if net.udpBindOk then
      if net.udpConnectOk addr then
        ([.udpBind, .udpConnect addr, .relayUdp], .ok)
      else
        ([.udpBind, .udpConnect addr],
          .err .ConnectionRefused
            ("failed to connect to udp " ++ addr ++ ": " ++ net.udpConnectErrMsg))
    else
      ([.udpBind], .err net.udpBindErr.1 net.udpBindErr.2)

/-- `Handler::handle_quic_stream`: build a client endpoint on `[::]:0`,
connect to the hardcoded `127.0.0.1:8081` under server name `example.com`,
open one bidirectional stream, send the handshake (its result is discarded —
no `?`, no `unwrap`), relay.  Every establishment step is `unwrap`ped, so
its failure is a panic, not an error value. -/
def handle_quic_stream (h : Handler) (net : Net) (request : InboundRequest) :
    List Event × Outcome :=
  match parseSocketAddr "[::]:0" with
  | none => ([], .panicked)
  | some localAddr =>
    if net.quicEndpointOk then
      match parseSocketAddr "127.0.0.1:8081" with
      | none => ([.quicEndpoint localAddr], .panicked)
      | some remote =>
        if net.quicConnectOk then
          if net.quicOpenBiOk then
            ([.quicEndpoint localAddr, .quicConnect remote "example.com",
              .quicOpenBi, .trojanHandshake h.secret request, .relayQuic], .ok)
          else
            ([.quicEndpoint localAddr, .quicConnect remote "example.com",
              .quicOpenBi], .panicked)
        else
          ([.quicEndpoint localAddr, .quicConnect remote "example.com"], .panicked)
    else
      ([.quicEndpoint localAddr], .panicked)

/-- The endpoint string built by `handle_grpc_stream` from the (unwrapped)
destination; the scheme depends on whether TLS is configured. -/
def grpcEndpoint (h : Handler) (dest : SocketAddr) : String :=
  match h.tls with
  | none => "http://" ++ dest.toDisplay
  | some _ => "https://" ++ dest.toDisplay

/-- `Handler::handle_grpc_stream`: `self.destination.unwrap()` (a panic when
`None`), connect the RPC client, queue the one control packet, start the
bidirectional `proxy` call, relay. -/
def handle_grpc_stream (h : Handler) (net : Net) (request : InboundRequest) :
    List Event × Outcome :=
  match h.destination with
  | none => ([], .panicked)
  | some dest =>
    let endpoint := grpcEndpoint h dest
    if net.grpcConnectOk endpoint then
      let packet : GrpcPacket :=
        ⟨1,
         some ⟨h.secret, request.atype, request.command, request.addr, request.port⟩,
         none⟩
      if net.grpcSendOk then
        if net.grpcProxyOk then
          ([.grpcConnect endpoint, .grpcSend packet, .grpcProxyCall, .relayGrpc], .ok)
        else
          ([.grpcConnect endpoint, .grpcSend packet, .grpcProxyCall],
            .err .Interrupted net.grpcProxyErrMsg)
      else
        ([.grpcConnect endpoint, .grpcSend packet],
          .err .ConnectionRefused "failed to write request data")
    else
      ([.grpcConnect endpoint],
        .err .ConnectionRefused
          ("failed to connect to remote server: " ++ net.grpcConnectErrMsg))

/-- The protocol `match` of `handle_tcp_stream`, reached only after the TCP
dial and the optional TLS escalation; `t` is the trace so far. -/
def tcpHandshakePhase (h : Handler) (net : Net) (request : InboundRequest)
    (t : List Event) : List Event × Outcome :=
  match h.protocol with
  | .TROJAN =>
    if h.secret.length ≠ HEX_SIZE then
      (t, .err .InvalidInput
        ("Hex in trojan protocol is not " ++ toString HEX_SIZE ++ " bytes"))
    else if net.trojanHandshakeOk then
      match request.transport_protocol with
      | .TCP => (t ++ [.trojanHandshake h.secret request, .relayTcp], .ok)
      | .UDP => (t ++ [.trojanHandshake h.secret request, .relayPackets], .ok)
    else
      (t ++ [.trojanHandshake h.secret request],
        .err net.trojanHandshakeErr.1 net.trojanHandshakeErr.2)
  | .SOCKS => (t, .err .Unsupported "Unsupported protocol")
  | .DIRECT => (t, .err .Unsupported "Unsupported protocol")

/-- `Handler::handle_tcp_stream`: destination check, TCP dial (`?`), TLS
escalation (`?`), then the protocol match with the token-width check, the
trojan handshake (`?`) and the relay. -/
def handle_tcp_stream (h : Handler) (net : Net) (request : InboundRequest) :
    List Event × Outcome :=
  match h.destination with
  | none => ([], .err .NotConnected "missing address of the remote server")
  | some dest =>
    if net.tcpConnectOk dest then
      match h.tls with
      | some domain =>
        if net.tlsOk then
          tcpHandshakePhase h net request [.tcpConnect dest, .tlsConnect domain]
        else
          ([.tcpConnect dest, .tlsConnect domain], .err net.tlsErr.1 net.tlsErr.2)
      | none => tcpHandshakePhase h net request [.tcpConnect dest]
    else
      ([.tcpConnect dest], .err net.tcpConnectErr.1 net.tcpConnectErr.2)

/-- `Handler::dispatch`: route on the mode; the selected escalator's result
is propagated unchanged (`?` then `Ok(())`). -/
def dispatch (h : Handler) (net : Net) (request : InboundRequest) :
    List Event × Outcome :=
  match h.mode with
  | .DIRECT => handle_direct_stream h net request
  | .TCP => handle_tcp_stream h net request
  | .GRPC => handle_grpc_stream h net request
  | .QUIC => handle_quic_stream h net request

/-- The TLS part of the trace `handle_tcp_stream` emits after the dial. -/
def tlsTrace (h : Handler) : List Event :=
  match h.tls with
  | some domain => [.tlsConnect domain]
  | none => []

/-! ## Concrete fixtures for counterexamples and witnesses -/

/-- Build a network oracle from one success flag per operation, with fixed
error payloads. -/
def mkNet (directTcpB udpBindB udpConnB tcpConnB tlsB hsB qEpB qConnB qBiB
    gConnB gSendB gProxyB : Bool) : Net :=
  ⟨fun _ => directTcpB, "connection refused",
   udpBindB, (.ConnectionRefused, "bind failed"),
   fun _ => udpConnB, "connection refused",
   fun _ => tcpConnB, (.ConnectionRefused, "connection refused"),
   tlsB, (.InvalidInput, "tls handshake failed"),
   hsB, (.ConnectionRefused, "handshake write failed"),
   qEpB, qConnB, qBiB,
   fun _ => gConnB, "connection refused",
   gSendB, gProxyB, "proxy call failed"⟩

/-- Every external operation succeeds. -/
def allOkNet : Net := mkNet true true true true true true true true true true true true

/-- The TCP dial to the fixed destination fails; everything else succeeds. -/
def tcpDialFailNet : Net := mkNet true true true false true true true true true true true true

/-- The QUIC connection establishment fails; everything else succeeds. -/
def quicDialFailNet : Net := mkNet true true true true true true true false true true true true

/-- The trojan handshake write fails; everything else succeeds. -/
def hsFailNet : Net := mkNet true true true true true false true true true true true true

/-- A parsed inbound TCP request. -/
def req0 : InboundRequest := ⟨.TCP, 1, 1, "93.184.216.34", 80⟩

/-- Tcp-mode trojan handler whose auth token is empty (as produced by
`Handler::new` for `TROJAN` with no secret). -/
def handlerEmptyTokenTcp : Handler :=
  ⟨.TCP, .TROJAN, some ⟨"127.0.0.1", 9001⟩, none, []⟩

/-- Tcp-mode handler with the unsupported `SOCKS` protocol. -/
def handlerSocksTcp : Handler :=
  ⟨.TCP, .SOCKS, some ⟨"127.0.0.1", 9001⟩, none, []⟩

/-- Grpc-mode handler with no fixed destination. -/
def handlerGrpcNoDest : Handler := ⟨.GRPC, .TROJAN, none, none, []⟩

/-- Tcp-mode handler with no fixed destination. -/
def handlerTcpNoDest : Handler := ⟨.TCP, .TROJAN, none, none, []⟩

/-- Quic-mode handler whose resolved destination is `10.0.0.1:443`. -/
def handlerQuic : Handler :=
  ⟨.QUIC, .TROJAN, some ⟨"10.0.0.1", 443⟩, none, []⟩

/-- Grpc-mode handler with a fixed destination. -/
def handlerGrpcOk : Handler :=
  ⟨.GRPC, .TROJAN, some ⟨"127.0.0.1", 9001⟩, none, []⟩

/-- The UTF-8 bytes of the plaintext secret `"s3cr3t"`. -/
def secretS3cr3t : List Nat := [115, 51, 99, 114, 51, 116]

/-- A valid trojan outbound configuration with secret `"s3cr3t"`. -/
def cfgTrojanOk : OutboundConfig :=
  ⟨.TCP, .TROJAN, some "127.0.0.1", some 9001, some secretS3cr3t, none⟩

/-- The handler `Handler::new` resolves `cfgTrojanOk` to. -/
def handlerTrojanOk : Handler :=
  ⟨.TCP, .TROJAN, some ⟨"127.0.0.1", 9001⟩, none, deriveToken secretS3cr3t⟩

/-- Trojan configuration with no secret and no destination. -/
def cfgTrojanNoSecret : OutboundConfig := ⟨.TCP, .TROJAN, none, none, none, none⟩

/-- Trojan configuration with no secret but a fixed destination. -/
def cfgTrojanNoSecretDest : OutboundConfig :=
  ⟨.TCP, .TROJAN, some "127.0.0.1", some 9001, none, none⟩

/-- Configuration whose address is a domain name rather than an IP literal. -/
def cfgDomainDest : OutboundConfig :=
  ⟨.TCP, .TROJAN, some "example.com", some 443, some secretS3cr3t, none⟩

/-! ## Sanity checks of the digest model (FIPS 180-4 test vectors) -/

/-- SHA-224 of the empty message matches the published test vector. -/
theorem sha224_empty_vector :
    sha224 [] =
      [0xd1, 0x4a, 0x02, 0x8c, 0x2a, 0x3a, 0x2b, 0xc9, 0x47, 0x61, 0x02, 0xbb,
       0x28, 0x82, 0x34, 0xc4, 0x15, 0xa2, 0xb0, 0x1f, 0x82, 0x8e, 0xa6, 0x2a,
       0xc5, 0xb3, 0xe4, 0x2f] := by rfl

/-- SHA-224 of `"abc"` matches the published test vector. -/
theorem sha224_abc_vector :
    sha224 [0x61, 0x62, 0x63] =
      [0x23, 0x09, 0x7d, 0x22, 0x34, 0x05, 0xd8, 0x22, 0x86, 0x42, 0xa4, 0x77,
       0xbd, 0xa2, 0x55, 0xb3, 0x2a, 0xad, 0xbc, 0xe4, 0xbd, 0xa0, 0xb3, 0xf7,
       0xe3, 0x6c, 0x9d, 0xa7] := by rfl

/-! ## Helper lemmas shared by several claim proofs -/

/-- Hex rendering doubles the length. -/
theorem hexEncode_length (l : List Nat) : (hexEncode l).length = 2 * l.length := by
  induction l with
  | nil => rfl
  | cons b rest ih =>
    simp only [hexEncode, List.length_cons, ih]
    ring

/-- A SHA-224 digest always has 28 bytes. -/
theorem sha224_length (msg : List Nat) : (sha224 msg).length = 28 := by
  simp [sha224, wordBytes]

/-- The derived token always has `HEX_SIZE = 56` bytes. -/
theorem deriveToken_length (s : List Nat) : (deriveToken s).length = HEX_SIZE := by
  simp [deriveToken, hexEncode_length, sha224_length, HEX_SIZE]

/-- Whenever `Handler::new` succeeds, the handler carries the configuration's
mode, protocol, TLS choice and the processed secret. -/
theorem new_ok_fields (outbound : OutboundConfig) (h : Handler)
    (hok : Handler.new outbound = .ok h) :
    h.mode = outbound.mode ∧ h.protocol = outbound.protocol ∧
      h.secret = newSecret outbound := by
  unfold Handler.new at hok
  split at hok
  · cases hok
  · split at hok
    · split at hok
      · cases hok
        exact ⟨rfl, rfl, rfl⟩
      · cases hok
    · cases hok
    · cases hok
    · cases hok
      exact ⟨rfl, rfl, rfl⟩

/-- In Tcp mode with the trojan protocol, a token of the wrong width makes
`dispatch` fail with the `InvalidInput` width error only after the TCP dial
(and TLS escalation when configured), and before any handshake is sent. -/
theorem tcp_trojan_width_failure (h : Handler) (net : Net)
    (request : InboundRequest) (d : SocketAddr)
    (hm : h.mode = .TCP) (hp : h.protocol = .TROJAN)
    (hlen : h.secret.length ≠ HEX_SIZE) (hd : h.destination = some d)
    (hc : net.tcpConnectOk d = true) (htls : net.tlsOk = true) :
    dispatch h net request =
      (Event.tcpConnect d :: tlsTrace h,
        .err .InvalidInput
          ("Hex in trojan protocol is not " ++ toString HEX_SIZE ++ " bytes")) := by
  obtain ⟨m, p, dst, tl, sec⟩ := h
  dsimp only at hm hp hlen hd ⊢
  subst hm hp hd
  cases tl with
  | none =>
    simp [dispatch, handle_tcp_stream, tcpHandshakePhase, tlsTrace, hc, hlen]
  | some domain =>
    simp [dispatch, handle_tcp_stream, tcpHandshakePhase, tlsTrace, hc, htls, hlen]

/-- Evaluation of the hardcoded local QUIC bind address literal. -/
theorem parseSocketAddr_quicLocal : parseSocketAddr "[::]:0" = some ⟨"::", 0⟩ := by
  decide

/-- Evaluation of the hardcoded QUIC remote address literal. -/
theorem parseSocketAddr_quicRemote :
    parseSocketAddr "127.0.0.1:8081" = some ⟨"127.0.0.1", 8081⟩ := by
  decide

/-! ## Claim theorems -/

/-- C1, counterexample: a Tcp-mode trojan handler whose token is not 56
bytes makes `dispatch` fail with the `InvalidInput` auth-width error, but the
trace already contains the TCP dial to the destination — so the failure is
not "before any network I/O is performed" as the claim states. -/
theorem C1_counterexample :
    dispatch handlerEmptyTokenTcp allOkNet req0 =
      ([Event.tcpConnect ⟨"127.0.0.1", 9001⟩],
        .err .InvalidInput "Hex in trojan protocol is not 56 bytes") := by
  rfl

/-- C1, amended: for every dispatch call in Tcp mode with the Trojan
protocol whose handler token is not exactly 56 bytes, `dispatch` fails with
the `InvalidInput` auth-width error after the TCP connection to the fixed
destination (and the TLS escalation when configured) but before any
handshake is sent; the width check is evaluated inside every dispatch call. -/
theorem C1_amended (h : Handler) (net : Net) (request : InboundRequest)
    (d : SocketAddr) (hm : h.mode = .TCP) (hp : h.protocol = .TROJAN)
    (hlen : h.secret.length ≠ HEX_SIZE) (hd : h.destination = some d)
    (hc : net.tcpConnectOk d = true) (htls : net.tlsOk = true) :
    dispatch h net request =
      (Event.tcpConnect d :: tlsTrace h,
        .err .InvalidInput
          ("Hex in trojan protocol is not " ++ toString HEX_SIZE ++ " bytes")) :=
  tcp_trojan_width_failure h net request d hm hp hlen hd hc htls

/-- C1, witness for the amended theorem at a concrete handler and oracle. -/
theorem C1_amended_witness :
    dispatch handlerEmptyTokenTcp allOkNet req0 =
      ([Event.tcpConnect ⟨"127.0.0.1", 9001⟩],
        .err .InvalidInput
          ("Hex in trojan protocol is not " ++ toString HEX_SIZE ++ " bytes")) :=
  C1_amended handlerEmptyTokenTcp allOkNet req0 ⟨"127.0.0.1", 9001⟩ rfl rfl
    (by decide) rfl rfl rfl

/-- C2: in Tcp mode a missing destination does return the `NotConnected`
("missing address of the remote server") error with no I/O attempted, but in
Grpc mode the code panics on `self.destination.unwrap()` instead of
returning the claimed error — this theorem evaluates both at the failing
input. -/
theorem C2_missing_destination_eval :
    dispatch handlerGrpcNoDest allOkNet req0 = ([], .panicked) ∧
    dispatch handlerTcpNoDest allOkNet req0 =
      ([], .err .NotConnected "missing address of the remote server") := by
  exact ⟨rfl, rfl⟩

/-- C3, counterexample: Tcp mode with the unsupported `SOCKS` protocol does
return "Unsupported protocol", but only after the TCP connection to the
destination has been established — the trace contains the dial, refuting
"without attempting any network I/O and with no partial connection made". -/
theorem C3_counterexample :
    dispatch handlerSocksTcp allOkNet req0 =
      ([Event.tcpConnect ⟨"127.0.0.1", 9001⟩],
        .err .Unsupported "Unsupported protocol") := by
  rfl

/-- C3, amended: only the Tcp mode rejects unsupported protocols (`SOCKS`,
`DIRECT`) with the `Unsupported` error, and it does so only after dialing
the fixed destination (and TLS escalation when configured); the other three
modes ignore the protocol field entirely. -/
theorem C3_amended :
    (∀ (h : Handler) (net : Net) (request : InboundRequest) (d : SocketAddr),
      h.mode = .TCP → (h.protocol = .SOCKS ∨ h.protocol = .DIRECT) →
      h.destination = some d → net.tcpConnectOk d = true → net.tlsOk = true →
      dispatch h net request =
        (Event.tcpConnect d :: tlsTrace h,
          .err .Unsupported "Unsupported protocol")) ∧
    (∀ (m : OutboundMode) (p q : SupportedProtocols) (dst : Option SocketAddr)
      (tl : Option String) (sec : List Nat) (net : Net) (request : InboundRequest),
      m ≠ .TCP →
      dispatch ⟨m, p, dst, tl, sec⟩ net request =
        dispatch ⟨m, q, dst, tl, sec⟩ net request) := by
  constructor
  · intro h net request d hm hp hd hc htls
    obtain ⟨m, p, dst, tl, sec⟩ := h
    dsimp only at hm hp hd ⊢
    subst hm hd
    rcases hp with hp | hp <;> subst hp <;> cases tl <;>
      simp [dispatch, handle_tcp_stream, tcpHandshakePhase, tlsTrace, hc, htls]
  · intro m p q dst tl sec net request hm
    cases m with
    | TCP => exact absurd rfl hm
    | DIRECT => rfl
    | GRPC => rfl
    | QUIC => rfl

/-- C3, witness for the amended theorem: the unsupported-protocol rejection
in Tcp mode, after the dial, at a concrete handler. -/
theorem C3_amended_witness :
    dispatch handlerSocksTcp allOkNet req0 =
      ([Event.tcpConnect ⟨"127.0.0.1", 9001⟩],
        .err .Unsupported "Unsupported protocol") :=
  C3_amended.1 handlerSocksTcp allOkNet req0 ⟨"127.0.0.1", 9001⟩ rfl (Or.inl rfl)
    rfl rfl rfl

/-- C4, counterexample: in Quic mode a failed connection establishment does
not surface as a terminal error value — `dispatch` panics (the code
`unwrap`s the connect future), refuting "for every mode ... dispatch never
panics on such a failure". -/
theorem C4_counterexample :
    dispatch handlerQuic quicDialFailNet req0 =
      ([Event.quicEndpoint ⟨"::", 0⟩,
        Event.quicConnect ⟨"127.0.0.1", 8081⟩ "example.com"], .panicked) := by
  rfl

/-- C4, amended: in Direct, Tcp and Grpc modes every escalator-level failure
(dial/connect/open, TLS escalation, application handshake) is surfaced
immediately to the caller of `dispatch` as a terminal error value after
exactly one attempt — `ConnectionRefused` for Direct and Grpc dials, the
propagated I/O error for the Tcp dial — with no retry and no panic; in Quic
mode, however, a failed endpoint/connect/open panics, and a failed handshake
is silently ignored (the session still relays and returns success). -/
theorem C4_amended :
    (∀ (h : Handler) (net : Net) (request : InboundRequest),
      h.mode = .DIRECT → request.transport_protocol = .TCP →
      net.directTcpOk request.into_destination_address = false →
      dispatch h net request =
        ([Event.directConnect request.into_destination_address],
          .err .ConnectionRefused
            ("failed to connect to tcp " ++ request.into_destination_address
              ++ ": " ++ net.directTcpErrMsg))) ∧
    (∀ (h : Handler) (net : Net) (request : InboundRequest),
      h.mode = .DIRECT → request.transport_protocol = .UDP →
      net.udpBindOk = true →
      net.udpConnectOk request.into_destination_address = false →
      dispatch h net request =
        ([Event.udpBind, Event.udpConnect request.into_destination_address],
          .err .ConnectionRefused
            ("failed to connect to udp " ++ request.into_destination_address
              ++ ": " ++ net.udpConnectErrMsg))) ∧
    (∀ (h : Handler) (net : Net) (request : InboundRequest) (d : SocketAddr),
      h.mode = .TCP → h.destination = some d → net.tcpConnectOk d = false →
      dispatch h net request =
        ([Event.tcpConnect d], .err net.tcpConnectErr.1 net.tcpConnectErr.2)) ∧
    (∀ (h : Handler) (net : Net) (request : InboundRequest) (d : SocketAddr)
      (domain : String),
      h.mode = .TCP → h.destination = some d → h.tls = some domain →
      net.tcpConnectOk d = true → net.tlsOk = false →
      dispatch h net request =
        ([Event.tcpConnect d, Event.tlsConnect domain],
          .err net.tlsErr.1 net.tlsErr.2)) ∧
    (∀ (h : Handler) (net : Net) (request : InboundRequest) (d : SocketAddr),
      h.mode = .TCP → h.protocol = .TROJAN → h.secret.length = HEX_SIZE →
      h.destination = some d → h.tls = none →
      net.tcpConnectOk d = true → net.trojanHandshakeOk = false →
      dispatch h net request =
        ([Event.tcpConnect d, Event.trojanHandshake h.secret request],
          .err net.trojanHandshakeErr.1 net.trojanHandshakeErr.2)) ∧
    (∀ (h : Handler) (net : Net) (request : InboundRequest) (d : SocketAddr),
      h.mode = .GRPC → h.destination = some d →
      net.grpcConnectOk (grpcEndpoint h d) = false →
      dispatch h net request =
        ([Event.grpcConnect (grpcEndpoint h d)],
          .err .ConnectionRefused
            ("failed to connect to remote server: " ++ net.grpcConnectErrMsg))) ∧
    (∀ (h : Handler) (net : Net) (request : InboundRequest),
      h.mode = .QUIC → net.quicEndpointOk = true → net.quicConnectOk = true →
      net.quicOpenBiOk = true → net.trojanHandshakeOk = false →
      dispatch h net request =
        ([Event.quicEndpoint ⟨"::", 0⟩,
          Event.quicConnect ⟨"127.0.0.1", 8081⟩ "example.com", Event.quicOpenBi,
          Event.trojanHandshake h.secret request, Event.relayQuic], .ok)) := by
  refine ⟨?_, ?_, ?_, ?_, ?_, ?_, ?_⟩
  · intro h net request hm ht hc
    obtain ⟨m, p, dst, tl, sec⟩ := h
    dsimp only at hm
    subst hm
    simp [dispatch, handle_direct_stream, ht, hc]
  · intro h net request hm ht hb hc
    obtain ⟨m, p, dst, tl, sec⟩ := h
    dsimp only at hm
    subst hm
    simp [dispatch, handle_direct_stream, ht, hb, hc]
  · intro h net request d hm hd hc
    obtain ⟨m, p, dst, tl, sec⟩ := h
    dsimp only at hm hd
    subst hm hd
    simp [dispatch, handle_tcp_stream, hc]
  · intro h net request d domain hm hd htl hc htls
    obtain ⟨m, p, dst, tl, sec⟩ := h
    dsimp only at hm hd htl
    subst hm hd htl
    simp [dispatch, handle_tcp_stream, hc, htls]
  · intro h net request d hm hp hlen hd htl hc hhs
    obtain ⟨m, p, dst, tl, sec⟩ := h
    dsimp only at hm hp hlen hd htl ⊢
    subst hm hp hd htl
    cases request with
    | mk tp atype command addr port =>
      cases tp <;>
        simp [dispatch, handle_tcp_stream, tcpHandshakePhase, hc, hhs, hlen]
  · intro h net request d hm hd hc
    obtain ⟨m, p, dst, tl, sec⟩ := h
    dsimp only at hm hd hc ⊢
    subst hm hd
    simp [dispatch, handle_grpc_stream, hc]
  · intro h net request hm he hc hb hhs
    obtain ⟨m, p, dst, tl, sec⟩ := h
    dsimp only at hm ⊢
    subst hm
    simp [dispatch, handle_quic_stream, parseSocketAddr_quicLocal,
      parseSocketAddr_quicRemote, he, hc, hb]

/-- C4, witness for the amended theorem: the Tcp-mode dial failure surfaces
the propagated I/O error after exactly one attempt. -/
theorem C4_amended_witness :
    dispatch handlerEmptyTokenTcp tcpDialFailNet req0 =
      ([Event.tcpConnect ⟨"127.0.0.1", 9001⟩],
        .err .ConnectionRefused "connection refused") :=
  C4_amended.2.2.1 handlerEmptyTokenTcp tcpDialFailNet req0 ⟨"127.0.0.1", 9001⟩
    rfl rfl rfl

/-- C5, counterexample: in Quic mode `dispatch` connects to the hardcoded
`127.0.0.1:8081` under server name `example.com`, not to the handler's
resolved destination `10.0.0.1:443` — refuting "establishes the QUIC
connection to the remote peer given by the handler's resolved
configuration". -/
theorem C5_counterexample :
    dispatch handlerQuic allOkNet req0 =
      ([Event.quicEndpoint ⟨"::", 0⟩,
        Event.quicConnect ⟨"127.0.0.1", 8081⟩ "example.com", Event.quicOpenBi,
        Event.trojanHandshake [] req0, Event.relayQuic], .ok) ∧
    handlerQuic.destination = some ⟨"10.0.0.1", 443⟩ ∧
    (⟨"127.0.0.1", 8081⟩ : SocketAddr) ≠ ⟨"10.0.0.1", 443⟩ := by
  refine ⟨rfl, rfl, by decide⟩

/-- C5, amended: in Quic mode `dispatch` binds the QUIC client to the
ephemeral local address `[::]:0`, establishes the QUIC connection to the
hardcoded peer `127.0.0.1:8081` under server name `example.com` (ignoring
the handler's destination and TLS configuration), opens exactly one
bidirectional stream, and sends the handshake on it before relaying. -/
theorem C5_amended (h : Handler) (net : Net) (request : InboundRequest)
    (he : net.quicEndpointOk = true) (hc : net.quicConnectOk = true)
    (hb : net.quicOpenBiOk = true) (hm : h.mode = .QUIC) :
    dispatch h net request =
      ([Event.quicEndpoint ⟨"::", 0⟩,
        Event.quicConnect ⟨"127.0.0.1", 8081⟩ "example.com", Event.quicOpenBi,
        Event.trojanHandshake h.secret request, Event.relayQuic], .ok) := by
  obtain ⟨m, p, dst, tl, sec⟩ := h
  dsimp only at hm ⊢
  subst hm
  simp [dispatch, handle_quic_stream, parseSocketAddr_quicLocal,
    parseSocketAddr_quicRemote, he, hc, hb]

/-- C5, witness for the amended theorem at a concrete handler and oracle. -/
theorem C5_amended_witness :
    dispatch handlerQuic allOkNet req0 =
      ([Event.quicEndpoint ⟨"::", 0⟩,
        Event.quicConnect ⟨"127.0.0.1", 8081⟩ "example.com", Event.quicOpenBi,
        Event.trojanHandshake [] req0, Event.relayQuic], .ok) :=
  C5_amended handlerQuic allOkNet req0 rfl rfl rfl rfl

/-- C6: for every configuration with the Trojan protocol and a supplied
plaintext secret, a successful `Handler::new` derives the auth token as the
SHA-224 digest of the secret's bytes rendered as two lowercase hexadecimal
characters per digest byte — a deterministic function (`deriveToken`) of the
secret alone — and the token has exactly 56 bytes. -/
theorem C6_token_derivation (outbound : OutboundConfig) (s : List Nat)
    (h : Handler) (hp : outbound.protocol = .TROJAN)
    (hs : outbound.secret = some s) (hok : Handler.new outbound = .ok h) :
    h.secret = deriveToken s ∧ h.secret.length = HEX_SIZE := by
  obtain ⟨-, -, hsec⟩ := new_ok_fields outbound h hok
  have htok : h.secret = deriveToken s := by
    rw [hsec]
    simp [newSecret, hp, hs]
  exact ⟨htok, by rw [htok, deriveToken_length]⟩

/-- C6, witness: resolving the configuration with secret `"s3cr3t"` yields
the 56-byte hex SHA-224 token. -/
theorem C6_token_derivation_witness :
    handlerTrojanOk.secret = deriveToken secretS3cr3t ∧
      handlerTrojanOk.secret.length = HEX_SIZE :=
  C6_token_derivation cfgTrojanOk secretS3cr3t handlerTrojanOk rfl rfl rfl

/-- C7, counterexample: with the Trojan protocol and no secret,
`Handler::new` does not fail — it returns a handler with an empty auth
token, refuting "resolve fails with an InvalidConfiguration error and no
Handler is ever created". -/
theorem C7_counterexample :
    Handler.new cfgTrojanNoSecret = .ok ⟨.TCP, .TROJAN, none, none, []⟩ := by
  rfl

/-- C7, amended: with the Trojan protocol and no secret, `Handler::new`
succeeds and yields a handler whose auth token is empty; the missing secret
is only caught later, inside each Tcp-mode dispatch call, by the 56-byte
width check (after the TCP dial and TLS escalation). -/
theorem C7_amended (outbound : OutboundConfig) (h : Handler)
    (hp : outbound.protocol = .TROJAN) (hs : outbound.secret = none)
    (hok : Handler.new outbound = .ok h) :
    h.secret = [] ∧
      ∀ (net : Net) (request : InboundRequest) (d : SocketAddr),
        h.mode = .TCP → h.destination = some d →
        net.tcpConnectOk d = true → net.tlsOk = true →
        dispatch h net request =
          (Event.tcpConnect d :: tlsTrace h,
            .err .InvalidInput
              ("Hex in trojan protocol is not " ++ toString HEX_SIZE ++ " bytes")) := by
  obtain ⟨-, hpr, hsec⟩ := new_ok_fields outbound h hok
  have hempty : h.secret = [] := by
    rw [hsec]
    simp [newSecret, hp, hs]
  refine ⟨hempty, ?_⟩
  intro net request d hmode hd hc htls
  exact tcp_trojan_width_failure h net request d hmode (hpr.trans hp)
    (by simp [hempty, HEX_SIZE]) hd hc htls

/-- C7, witness for the amended theorem: the handler resolved from the
secretless configuration dispatches into the width-check failure. -/
theorem C7_amended_witness :
    dispatch handlerEmptyTokenTcp allOkNet req0 =
      ([Event.tcpConnect ⟨"127.0.0.1", 9001⟩],
        .err .InvalidInput
          ("Hex in trojan protocol is not " ++ toString HEX_SIZE ++ " bytes")) :=
  (C7_amended cfgTrojanNoSecretDest handlerEmptyTokenTcp rfl rfl rfl).2 allOkNet
    req0 ⟨"127.0.0.1", 9001⟩ rfl rfl rfl rfl

/-- C8: in Grpc mode, a dispatched request sends exactly one initial control
message on the bidirectional stream before anything is relayed: a structured
`GrpcPacket` with discriminator `packet_type = 1` (control), carrying the
handler's auth token and the request's address type, command, destination
address and port, and with no raw-bytes payload (`datagram = none`). -/
theorem C8_grpc_control_message (h : Handler) (net : Net)
    (request : InboundRequest) (d : SocketAddr) (hm : h.mode = .GRPC)
    (hd : h.destination = some d)
    (hc : net.grpcConnectOk (grpcEndpoint h d) = true)
    (hsend : net.grpcSendOk = true) (hproxy : net.grpcProxyOk = true) :
    dispatch h net request =
      ([Event.grpcConnect (grpcEndpoint h d),
        Event.grpcSend ⟨1, some ⟨h.secret, request.atype, request.command,
          request.addr, request.port⟩, none⟩,
        Event.grpcProxyCall, Event.relayGrpc], .ok) := by
  obtain ⟨m, p, dst, tl, sec⟩ := h
  dsimp only at hm hd hc ⊢
  subst hm hd
  simp [dispatch, handle_grpc_stream, hc, hsend, hproxy]

/-- C8, witness at a concrete handler, request and oracle. -/
theorem C8_grpc_control_message_witness :
    dispatch handlerGrpcOk allOkNet req0 =
      ([Event.grpcConnect "http://127.0.0.1:9001",
        Event.grpcSend ⟨1, some ⟨[], 1, 1, "93.184.216.34", 80⟩, none⟩,
        Event.grpcProxyCall, Event.relayGrpc], .ok) :=
  C8_grpc_control_message handlerGrpcOk allOkNet req0 ⟨"127.0.0.1", 9001⟩ rfl rfl
    rfl rfl rfl

/-- C10: a configuration whose address and port are both present but whose
`"address:port"` rendering is not a parseable socket address — here the
domain name `example.com` — makes `Handler::new` panic (`parse().unwrap()`)
instead of returning an error value. -/
theorem C10_domain_destination_panics :
    Handler.new cfgDomainDest = .panicked := by
  rfl

end TrojanRust
